import Mathlib

/-!
Verification of the ForkFight rating core against its specification.

The TypeScript source is embedded shallowly: JavaScript numbers are modelled
as real numbers (`ℝ`), the Supabase-backed repositories as a pure `DB` state
threaded through the operations, and thrown errors / structured failures as
`Except` values returned alongside the (possibly unchanged) state.
-/

namespace ForkFight

noncomputable section

/-! ## RatingMath (`src/unnamed/part_009`, `lib/elo`) -/

/-- Outcome of a matchup from player A's perspective (`type Outcome = 'A' | 'B' | 'draw'`). -/
inductive Outcome
  | A
  | B
  | draw
deriving DecidableEq

/-- A JavaScript number as the ELO entry points receive it: either NaN or an
actual (real) number.  Models the `Number.isNaN` guards of `lib/elo`. -/
inductive JSNum
  | nan
  | num (x : ℝ)

/-- `expectedScore(ratingA, ratingB)` of `lib/elo`:
`1 / (1 + Math.pow(10, (ratingB - ratingA) / 400))`, on non-NaN inputs. -/
def expectedScore (ratingA ratingB : ℝ) : ℝ :=
  1 / (1 + (10 : ℝ) ^ ((ratingB - ratingA) / 400))

/-- `expectedScore` including its NaN guard: the source throws
`'ELO ratings cannot be NaN'` when either input is NaN. -/
def expectedScoreChecked : JSNum → JSNum → Except String ℝ
  | JSNum.num a, JSNum.num b => Except.ok (expectedScore a b)
  | _, _ => Except.error "ELO ratings cannot be NaN"

/-- `K_FACTOR = 32` of `lib/elo`. -/
def K_FACTOR : ℝ := 32

/-- Output record of `updatePairByOutcome`. -/
structure UpdatePairOutput where
  newA : ℝ
  newB : ℝ
  deltaA : ℝ
  deltaB : ℝ

/-- The `switch (outcome)` of `updatePairByOutcome`: actual scores `(S_A, S_B)`. -/
def actualScores : Outcome → ℝ × ℝ
  | Outcome.A => (1, 0)
  | Outcome.B => (0, 1)
  | Outcome.draw => (0.5, 0.5)

/-- `updatePairByOutcome({ratingA, ratingB, outcome})` of `lib/elo`:
`E_A = expectedScore(ratingA, ratingB)`, `E_B = 1 - E_A`,
`deltaX = K_FACTOR * (S_X - E_X)`, `newX = ratingX + deltaX`. -/
def updatePairByOutcome (ratingA ratingB : ℝ) (outcome : Outcome) : UpdatePairOutput :=
  let E_A := expectedScore ratingA ratingB
  let E_B := 1 - E_A
  let S := actualScores outcome
  let deltaA := K_FACTOR * (S.1 - E_A)
  let deltaB := K_FACTOR * (S.2 - E_B)
  { newA := ratingA + deltaA, newB := ratingB + deltaB, deltaA := deltaA, deltaB := deltaB }

/-! ## Data model (`src/unnamed/part_013`, `types/restaurant`) -/

/-- The four rating fields of a restaurant row
(`eloGlobal`, `eloValue`, `eloAesthetics`, `eloSpeed`). -/
inductive EloField
  | global
  | value
  | aesthetics
  | speed
deriving DecidableEq

/-- A category string as it reaches the rating core at runtime.  The
TypeScript type `VotableCategory` is `'value' | 'aesthetics' | 'speed'` and
`SortableCategory` adds `'global'`; the type is erased at runtime, and
`submitVote` computes its field key from whatever string it receives, so the
model keeps all four values. -/
inductive SortCat
  | global
  | value
  | aesthetics
  | speed
deriving DecidableEq

/-- The `` `elo${category.charAt(0).toUpperCase()}${category.slice(1)}` ``
computation of `submit.ts` / `part_012`, evaluated on the four category
strings: `value ↦ eloValue`, `aesthetics ↦ eloAesthetics`, `speed ↦ eloSpeed`,
and (at runtime) `global ↦ eloGlobal`. -/
def categoryKey : SortCat → EloField
  | SortCat.global => EloField.global
  | SortCat.value => EloField.value
  | SortCat.aesthetics => EloField.aesthetics
  | SortCat.speed => EloField.speed

/-- A restaurant row: its identifier and the four mutable rating fields.
Fields of the source type not touched by the rating core (name, slug,
coordinates, ...) are omitted. -/
structure Restaurant where
  id : String
  eloGlobal : ℝ
  eloValue : ℝ
  eloAesthetics : ℝ
  eloSpeed : ℝ

instance : Inhabited Restaurant :=
  ⟨⟨"", 1500, 1500, 1500, 1500⟩⟩

/-- Dynamic field read `r[categoryKey]`. -/
def getField (r : Restaurant) : EloField → ℝ
  | EloField.global => r.eloGlobal
  | EloField.value => r.eloValue
  | EloField.aesthetics => r.eloAesthetics
  | EloField.speed => r.eloSpeed

/-- Dynamic field write `{ ...r, [f]: x }`. -/
def setField (r : Restaurant) : EloField → ℝ → Restaurant
  | EloField.global, x => { r with eloGlobal := x }
  | EloField.value, x => { r with eloValue := x }
  | EloField.aesthetics, x => { r with eloAesthetics := x }
  | EloField.speed, x => { r with eloSpeed := x }

/-- `VoteWithDeltas` of the vote repository: one ledger row, storing the four
signed deltas for exact undo, the `undone` flag and the creating user.
`createdAt` is the model's logical creation time. -/
structure VoteWithDeltas where
  voteId : String
  winnerId : String
  loserId : String
  category : SortCat
  deltaGlobalWinner : ℝ
  deltaGlobalLoser : ℝ
  deltaCatWinner : ℝ
  deltaCatLoser : ℝ
  undone : Bool
  createdAt : ℕ
  userId : Option String

/-- The persistent store as the core sees it: the `restaurants` table, the
`votes` table and a counter from which fresh vote ids and creation times are
drawn (modelling the database's generated UUIDs / timestamps). -/
structure DB where
  restaurants : List Restaurant
  votes : List VoteWithDeltas
  nextId : ℕ

/-! ## Repository functions (`src/README.md`, `lib/db/restaurants` and `lib/db/votes`) -/

/-- `getRestaurantById`: `select * from restaurants where id = ?`, `null` when absent. -/
def getRestaurantById (db : DB) (id : String) : Option Restaurant :=
  db.restaurants.find? (fun r => r.id == id)

/-- A partial ELO update for one restaurant row: the `Partial<Pick<Restaurant, ...>>`
argument of `updateRestaurantRatings`. -/
structure RatingPatch where
  eloGlobal : Option ℝ
  eloValue : Option ℝ
  eloAesthetics : Option ℝ
  eloSpeed : Option ℝ

/-- The empty partial update `{}`. -/
def emptyPatch : RatingPatch :=
  ⟨none, none, none, none⟩

/-- Add field `f := x` to a partial update (a computed object key). -/
def RatingPatch.set (p : RatingPatch) : EloField → ℝ → RatingPatch
  | EloField.global, x => { p with eloGlobal := some x }
  | EloField.value, x => { p with eloValue := some x }
  | EloField.aesthetics, x => { p with eloAesthetics := some x }
  | EloField.speed, x => { p with eloSpeed := some x }

/-- The object literal `{ eloGlobal: g, [categoryKey]: c }` built by both
`submitVote` and `undoVote`: the `eloGlobal` key is written first, then the
computed category key (which overwrites it when the key is `eloGlobal`). -/
def eloPatch (g : ℝ) (key : EloField) (c : ℝ) : RatingPatch :=
  (emptyPatch.set EloField.global g).set key c

/-- `Map.set`: replace any entry with the same key, otherwise append. -/
def mapSet (m : List (String × RatingPatch)) (k : String) (v : RatingPatch) :
    List (String × RatingPatch) :=
  m.filter (fun kv => !(kv.1 == k)) ++ [(k, v)]

/-- The two-entry update map both `submitVote` and `undoVote` build:
`updates.set(winnerId, {eloGlobal: gW, [key]: cW}); updates.set(loserId, {eloGlobal: gL, [key]: cL})`. -/
def voteUpdates (wid lid : String) (key : EloField) (gW cW gL cL : ℝ) :
    List (String × RatingPatch) :=
  mapSet (mapSet [] wid (eloPatch gW key cW)) lid (eloPatch gL key cL)

/-- Apply whichever entry of the update map (if any) targets this row. -/
def applyPatch (r : Restaurant) (p : RatingPatch) : Restaurant :=
  { r with
    eloGlobal := p.eloGlobal.getD r.eloGlobal
    eloValue := p.eloValue.getD r.eloValue
    eloAesthetics := p.eloAesthetics.getD r.eloAesthetics
    eloSpeed := p.eloSpeed.getD r.eloSpeed }

/-- One row under `updateRestaurantRatings`: rows whose id appears in the map
get the matching partial update written over them (an absolute overwrite
`update(dbFields).eq('id', id)`, not a relative increment). -/
def applyUpdates (us : List (String × RatingPatch)) (r : Restaurant) : Restaurant :=
  match us.find? (fun kv => kv.1 == r.id) with
  | some kv => applyPatch r kv.2
  | none => r

/-- `updateRestaurantRatings(updates)` of the restaurant repository: each entry
of the map is an unconditional `update` of the named row's listed fields. -/
def updateRestaurantRatings (db : DB) (us : List (String × RatingPatch)) : DB :=
  { db with restaurants := db.restaurants.map (applyUpdates us) }

/-- `storeVote(...)` of the vote repository: insert a row with the four deltas,
`undone: false`, and a freshly generated id; returns the new vote id. -/
def storeVote (db : DB) (wid lid : String) (category : SortCat)
    (dgw dgl dcw dcl : ℝ) (userId : Option String) : DB × String :=
  let voteId := toString db.nextId
  ({ db with
      votes := db.votes ++
        [⟨voteId, wid, lid, category, dgw, dgl, dcw, dcl, false, db.nextId, userId⟩]
      nextId := db.nextId + 1 },
    voteId)

/-- `getVoteById`: `select * from votes where id = ?`, `null` when absent. -/
def getVoteById (db : DB) (voteId : String) : Option VoteWithDeltas :=
  db.votes.find? (fun v => v.voteId == voteId)

/-- `markVoteUndone`: `update votes set undone = true where id = ?`. -/
def markVoteUndone (db : DB) (voteId : String) : DB :=
  { db with
    votes := db.votes.map (fun v =>
      if v.voteId = voteId then { v with undone := true } else v) }

/-! ## VoteProcessor (`src/lib/votes/submit.ts`) -/

/-- Result of `submitVote`. -/
structure SubmitVoteResult where
  voteId : String
  winner : Restaurant
  loser : Restaurant

/-- `submitVote(input)` of `lib/votes/submit`: validate, read both rows, apply
`updatePairByOutcome` once to the global ratings and once to the voted
category's ratings, write the four new absolute values through
`updateRestaurantRatings`, append the ledger row via `storeVote`, and return
the vote id with the two updated restaurants.  A thrown `Error` is the
`Except.error` case, and the state component carries the store, unchanged on
every error path (the function throws before any write). -/
def submitVote (db : DB) (winnerId loserId : String) (category : SortCat)
    (userId : Option String) : Except String SubmitVoteResult × DB :=
  if winnerId = loserId then
    (Except.error "Winner and loser must be different restaurants", db)
  else if winnerId = "" ∨ loserId = "" then
    (Except.error "Draw support not implemented yet (winner and loser required)", db)
  else
    match getRestaurantById db winnerId with
    | none => (Except.error ("Winner restaurant " ++ winnerId ++ " not found"), db)
    | some winner =>
      match getRestaurantById db loserId with
      | none => (Except.error ("Loser restaurant " ++ loserId ++ " not found"), db)
      | some loser =>
        let g := updatePairByOutcome winner.eloGlobal loser.eloGlobal Outcome.A
        let key := categoryKey category
        let c := updatePairByOutcome (getField winner key) (getField loser key) Outcome.A
        let updatedWinner := setField (setField winner EloField.global g.newA) key c.newA
        let updatedLoser := setField (setField loser EloField.global g.newB) key c.newB
        let db1 := updateRestaurantRatings db
          (voteUpdates winnerId loserId key g.newA c.newA g.newB c.newB)
        let out := storeVote db1 winnerId loserId category g.deltaA g.deltaB c.deltaA c.deltaB userId
        (Except.ok { voteId := out.2, winner := updatedWinner, loser := updatedLoser }, out.1)

/-! ## UndoProcessor (`src/unnamed/part_012`) -/

/-- Result of `undoVote`. -/
structure UndoVoteResult where
  success : Bool
  winner : Option Restaurant := none
  loser : Option Restaurant := none
  reason : Option String := none

/-- `undoVote(voteId)` of `part_012`: look the vote up (absent → `not found`;
`undone` → `already undone`), read the two rows' current ratings, subtract the
four stored deltas, write the results back, mark the vote undone, and re-fetch
the restored rows. -/
def undoVote (db : DB) (voteId : String) : UndoVoteResult × DB :=
  match getVoteById db voteId with
  | none => ({ success := false, reason := some "Vote not found" }, db)
  | some v =>
    if v.undone then
      ({ success := false, reason := some "Vote already undone" }, db)
    else
      match getRestaurantById db v.winnerId, getRestaurantById db v.loserId with
      | some winner, some loser =>
        let key := categoryKey v.category
        let restoredWinnerGlobal := winner.eloGlobal - v.deltaGlobalWinner
        let restoredWinnerCat := getField winner key - v.deltaCatWinner
        let restoredLoserGlobal := loser.eloGlobal - v.deltaGlobalLoser
        let restoredLoserCat := getField loser key - v.deltaCatLoser
        let db1 := updateRestaurantRatings db
          (voteUpdates v.winnerId v.loserId key
            restoredWinnerGlobal restoredWinnerCat restoredLoserGlobal restoredLoserCat)
        let db2 := markVoteUndone db1 voteId
        ({ success := true,
           winner := getRestaurantById db2 v.winnerId,
           loser := getRestaurantById db2 v.loserId }, db2)
      | _, _ => ({ success := false, reason := some "Restaurant(s) not found" }, db)

/-! ## MatchupSelector (`src/lib/matchup.ts`) -/

/-- A generated matchup: fresh opaque id, category, the two restaurant ids,
and a creation timestamp. -/
structure Matchup where
  id : String
  category : SortCat
  a : String
  b : String
  createdAt : ℕ

/-- The `while (indexB === indexA)` resample loop of `generateMatchup`:
`rand i, rand (i+1), ...` are the successive `Math.floor(Math.random() * n)`
draws; the first one different from `indexA` is kept.  `fuel` bounds the
unrolling: `none` models the loop not having terminated within `fuel` draws. -/
def pickDistinct (a : ℕ) (rand : ℕ → ℕ) : ℕ → ℕ → Option ℕ
  | _, 0 => none
  | i, fuel + 1 => if rand i = a then pickDistinct a rand (i + 1) fuel else some (rand i)

/-- `generateMatchup(category)` of `lib/matchup`: fetch the restaurant list,
fail when fewer than 2 exist, then draw two distinct random indices
(reject-and-resample) and return a fresh matchup.  `rand` is the stream of
index draws, `freshId` the `crypto.randomUUID()` value, `now` the
`Date.now()` value. -/
def generateMatchup (restaurants : List Restaurant) (category : SortCat)
    (rand : ℕ → ℕ) (fuel : ℕ) (freshId : String) (now : ℕ) :
    Option (Except String Matchup) :=
  if restaurants.length < 2 then
    some (Except.error ("Need at least 2 restaurants, found " ++ toString restaurants.length))
  else
    let indexA := rand 0
    match pickDistinct indexA rand 1 fuel with
    | none => none
    | some indexB =>
      some (Except.ok
        { id := freshId, category := category,
          a := (restaurants.getD indexA default).id,
          b := (restaurants.getD indexB default).id,
          createdAt := now })

/-! ## PersonalRankingReplay (`src/unnamed/part_010`) -/

/-- One entry of the returned personal ranking (presentation-only fields of
`RankingEntry` are omitted). -/
structure RankingEntry where
  rank : ℕ
  id : String
  rating : ℝ

/-- Modelled from the spec: `getVotesByUser(userId)` is imported by
`part_010` from `lib/db/votes`, whose source file is not in the repository
(the vote repository text present only defines `storeVote`, `getVoteById` and
`markVoteUndone`).  Spec §6: `VoteLedger.listByUser(userId, category?) ->
ordered list of VoteRecord (ordered by creation time ascending; excludes
undone records)`. -/
def getVotesByUser (votes : List VoteWithDeltas) (userId : String) :
    List VoteWithDeltas :=
  (votes.filter (fun v => v.userId == some userId && !v.undone)).mergeSort
    (fun u v => u.createdAt ≤ v.createdAt)

/-- The replay fold of `getPersonalRankings`: the `ratingById` map starts every
id at 1500 (`Map.get(..) ?? 1500`), and each vote re-runs `updatePairByOutcome`
on the scratch ratings, setting the winner's entry and then the loser's. -/
def replayVotes (votes : List VoteWithDeltas) : String → ℝ :=
  votes.foldl
    (fun f v =>
      let o := updatePairByOutcome (f v.winnerId) (f v.loserId) Outcome.A
      fun id => if id = v.loserId then o.newB else if id = v.winnerId then o.newA else f id)
    (fun _ => 1500)

/-- `getPersonalRankings(userId, category)` of `part_010`, given the already
fetched restaurant list and the user's vote list: filter to the category
(`'global'` keeps all), replay in order against scratch ratings, sort the
restaurants by the computed rating descending (stable), and number the ranks. -/
def getPersonalRankings (restaurants : List Restaurant)
    (userVotes : List VoteWithDeltas) (category : SortCat) : List RankingEntry :=
  let relevantVotes :=
    if category = SortCat.global then userVotes
    else userVotes.filter (fun v => v.category == category)
  let rating := replayVotes relevantVotes
  let sorted := restaurants.mergeSort (fun ra rb => decide (rating rb.id ≤ rating ra.id))
  sorted.enum.map (fun p => { rank := p.1 + 1, id := p.2.id, rating := rating p.2.id })

/-- The full personal-ranking pipeline: fetch the user's votes (undone
excluded, creation order) and replay them. -/
def computePersonalRankings (restaurants : List Restaurant)
    (votes : List VoteWithDeltas) (userId : String) (category : SortCat) :
    List RankingEntry :=
  getPersonalRankings restaurants (getVotesByUser votes userId) category

/-! ## The POST /api/vote route (`src/unnamed/part_005`) -/

/-- `VOTABLE_CATEGORIES` of `types/restaurant`. -/
def VOTABLE_CATEGORIES : List String := ["value", "aesthetics", "speed"]

/-- The category string as `submitVote`'s key computation receives it. -/
def parseCategory (s : String) : SortCat :=
  if s = "value" then SortCat.value
  else if s = "aesthetics" then SortCat.aesthetics
  else if s = "speed" then SortCat.speed
  else SortCat.global

/-- The POST /api/vote handler of `part_005`: reject missing fields, a
non-votable category, and equal winner/loser ids with a 400 response before
`submitVote` is ever invoked; otherwise delegate to `submitVote`. -/
def votePost (db : DB) (matchupId winnerId loserId category : String)
    (userId : Option String) : Except String SubmitVoteResult × DB :=
  if matchupId = "" ∨ winnerId = "" ∨ loserId = "" ∨ category = "" then
    (Except.error "Missing required fields: matchupId, winnerId, loserId, category", db)
  else if ¬ (category ∈ VOTABLE_CATEGORIES) then
    (Except.error "Invalid category. Must be one of: value, aesthetics, speed", db)
  else if winnerId = loserId then
    (Except.error "Winner and loser must be different restaurants", db)
  else
    submitVote db winnerId loserId (parseCategory category) userId

/-! ## Concrete stores for witnesses and counterexamples -/

/-- Two restaurants at the 1500 baseline, empty ledger. -/
def sampleDB : DB :=
  ⟨[⟨"a", 1500, 1500, 1500, 1500⟩, ⟨"b", 1500, 1500, 1500, 1500⟩], [], 0⟩

/-- A single already-stored vote: `a` beat `b` on `value`, deltas ±16. -/
def sampleVote : VoteWithDeltas :=
  ⟨"0", "a", "b", SortCat.value, 16, -16, 16, -16, false, 0, some "u1"⟩

/-- `sampleDB` after `sampleVote` was recorded. -/
def sampleDB2 : DB :=
  ⟨[⟨"a", 1516, 1516, 1500, 1500⟩, ⟨"b", 1484, 1484, 1500, 1500⟩], [sampleVote], 1⟩

/-- A ledger row whose restaurants are no longer resolvable. -/
def sampleDB3 : DB :=
  ⟨[], [sampleVote], 1⟩

/-! ## The concurrency scenario of claim C2 -/

/-- Restaurant row `A` at the 1500 baseline. -/
def rowA : Restaurant := ⟨"A", 1500, 1500, 1500, 1500⟩

/-- Restaurant row `B` at the 1500 baseline. -/
def rowB : Restaurant := ⟨"B", 1500, 1500, 1500, 1500⟩

/-- Restaurant row `C` at the 1500 baseline. -/
def rowC : Restaurant := ⟨"C", 1500, 1500, 1500, 1500⟩

/-- Three restaurants at the 1500 baseline. -/
def dbC2 : DB :=
  ⟨[rowA, rowB, rowC], [], 0⟩

/-- Two concurrent `submitVote` calls (`A` beats `B` on `value`, `A` beats `C`
on `value`) interleaved read-read-write-write: both calls read their rows from
`dbC2` (each call's `Promise.all([getRestaurantById ...])` runs before either
has written — `rowA`, `rowB`, `rowC` are exactly those reads, see
`reads_dbC2`), then each applies its computed absolute rating values through
`updateRestaurantRatings` and appends its ledger row via `storeVote`, in
commit order.  Each phase is the corresponding piece of `submitVote`'s body. -/
def interleavedDB : DB :=
  let g1 := updatePairByOutcome rowA.eloGlobal rowB.eloGlobal Outcome.A
  let c1 := updatePairByOutcome (getField rowA EloField.value) (getField rowB EloField.value) Outcome.A
  let g2 := updatePairByOutcome rowA.eloGlobal rowC.eloGlobal Outcome.A
  let c2 := updatePairByOutcome (getField rowA EloField.value) (getField rowC EloField.value) Outcome.A
  let db1 := updateRestaurantRatings dbC2
    (voteUpdates "A" "B" EloField.value g1.newA c1.newA g1.newB c1.newB)
  let db2 := (storeVote db1 "A" "B" SortCat.value g1.deltaA g1.deltaB c1.deltaA c1.deltaB none).1
  let db3 := updateRestaurantRatings db2
    (voteUpdates "A" "C" EloField.value g2.newA c2.newA g2.newB c2.newB)
  (storeVote db3 "A" "C" SortCat.value g2.deltaA g2.deltaB c2.deltaA c2.deltaB none).1

end

/-! ## Claim theorems about RatingMath -/

/-- Claim C3: for all ratings and every outcome, the two deltas returned by
`updatePairByOutcome` sum to exactly zero, by construction. -/
theorem updatePairByOutcome_deltas_zero_sum (ratingA ratingB : ℝ) (outcome : Outcome) :
    (updatePairByOutcome ratingA ratingB outcome).deltaA
      + (updatePairByOutcome ratingA ratingB outcome).deltaB = 0 := by
  cases outcome <;>
    simp only [updatePairByOutcome, actualScores, K_FACTOR] <;>
    ring

/-- Claim C6: on non-NaN inputs `expectedScore` returns the logistic expectation
`1 / (1 + 10 ^ ((ratingB - ratingA) / 400))`, which lies strictly between 0 and 1,
and on a NaN input it fails with the `InvalidInput` condition
(`'ELO ratings cannot be NaN'`). -/
theorem expectedScore_logistic_in_unit_interval (a b : ℝ) :
    expectedScoreChecked (JSNum.num a) (JSNum.num b) = Except.ok (expectedScore a b)
      ∧ expectedScore a b = 1 / (1 + (10 : ℝ) ^ ((b - a) / 400))
      ∧ 0 < expectedScore a b
      ∧ expectedScore a b < 1
      ∧ (∀ v : JSNum, expectedScoreChecked JSNum.nan v = Except.error "ELO ratings cannot be NaN")
      ∧ (∀ v : JSNum, expectedScoreChecked v JSNum.nan = Except.error "ELO ratings cannot be NaN") := by
  have hpow : 0 < (10 : ℝ) ^ ((b - a) / 400) := Real.rpow_pos_of_pos (by norm_num) _
  refine ⟨rfl, rfl, ?_, ?_, ?_, ?_⟩
  · unfold expectedScore
    positivity
  · unfold expectedScore
    rw [div_lt_one (by linarith)]
    linarith
  · intro v
    cases v <;> rfl
  · intro v
    cases v <;> rfl

/-! ## Store lemmas -/

theorem find?_map_of_pred_comm {α : Type} (f : α → α) (p : α → Bool)
    (h : ∀ x, p (f x) = p x) (l : List α) :
    (l.map f).find? p = (l.find? p).map f := by
  induction l with
  | nil => rfl
  | cons a t ih =>
    simp only [List.map_cons, List.find?_cons, h a]
    cases hp : p a <;> simp [hp, ih]

theorem applyUpdates_id (us : List (String × RatingPatch)) (r : Restaurant) :
    (applyUpdates us r).id = r.id := by
  unfold applyUpdates
  split <;> rfl

theorem getRestaurantById_update (db : DB) (us : List (String × RatingPatch)) (id : String) :
    getRestaurantById (updateRestaurantRatings db us) id
      = (getRestaurantById db id).map (applyUpdates us) := by
  unfold getRestaurantById updateRestaurantRatings
  exact find?_map_of_pred_comm _ _ (fun r => by simp [applyUpdates_id]) _

theorem getRestaurantById_mark (db : DB) (vid id : String) :
    getRestaurantById (markVoteUndone db vid) id = getRestaurantById db id := rfl

theorem getVoteById_update (db : DB) (us : List (String × RatingPatch)) (vid : String) :
    getVoteById (updateRestaurantRatings db us) vid = getVoteById db vid := rfl

theorem getVoteById_mark (db : DB) (vid vid' : String) :
    getVoteById (markVoteUndone db vid) vid'
      = (getVoteById db vid').map
          (fun v => if v.voteId = vid then { v with undone := true } else v) := by
  unfold getVoteById markVoteUndone
  refine find?_map_of_pred_comm _ _ (fun v => ?_) _
  by_cases h : v.voteId = vid <;> simp [h]

theorem getVoteById_voteId (db : DB) (vid : String) (v : VoteWithDeltas)
    (h : getVoteById db vid = some v) : v.voteId = vid := by
  have := List.find?_some h
  simpa using this

theorem find?_voteUpdates_winner (wid lid : String) (key : EloField) (gW cW gL cL : ℝ)
    (hne : wid ≠ lid) :
    (voteUpdates wid lid key gW cW gL cL).find? (fun kv => kv.1 == wid)
      = some (wid, eloPatch gW key cW) := by
  simp [voteUpdates, mapSet, List.find?_cons, hne]

theorem find?_voteUpdates_loser (wid lid : String) (key : EloField) (gW cW gL cL : ℝ) :
    (voteUpdates wid lid key gW cW gL cL).find? (fun kv => kv.1 == lid)
      = some (lid, eloPatch gL key cL) := by
  by_cases h : wid = lid <;> simp [voteUpdates, mapSet, List.find?_cons, h]

theorem find?_voteUpdates_other (wid lid z : String) (key : EloField) (gW cW gL cL : ℝ)
    (hz1 : z ≠ wid) (hz2 : z ≠ lid) :
    (voteUpdates wid lid key gW cW gL cL).find? (fun kv => kv.1 == z) = none := by
  by_cases h : wid = lid <;>
    simp [voteUpdates, mapSet, List.find?_cons, h, Ne.symm hz1, Ne.symm hz2]

theorem getField_patch (r : Restaurant) (g c : ℝ) (key f : EloField) :
    getField (applyPatch r (eloPatch g key c)) f
      = if f = key then c else if f = EloField.global then g else getField r f := by
  cases key <;> cases f <;>
    simp [eloPatch, emptyPatch, RatingPatch.set, applyPatch, getField]

theorem expectedScore_self (x : ℝ) : expectedScore x x = 1 / 2 := by
  unfold expectedScore
  rw [sub_self, zero_div, Real.rpow_zero]
  norm_num

theorem updatePair_self_A (x : ℝ) :
    updatePairByOutcome x x Outcome.A = ⟨x + 16, x - 16, 16, -16⟩ := by
  unfold updatePairByOutcome actualScores
  simp only [expectedScore_self, K_FACTOR, UpdatePairOutput.mk.injEq]
  refine ⟨by ring, by ring, by ring, by ring⟩

/-! ## Claims C5 and C10: undo rejection paths -/

/-- Claim C5: `undoVote` on an unknown id fails with reason `Vote not found`;
on an already-undone vote it fails with reason `Vote already undone`; both
rejections leave the store untouched, and after a successful undo a second
`undoVote` on the same id is exactly that idempotent rejection. -/
theorem undoVote_rejections (db : DB) (vid : String) :
    (getVoteById db vid = none →
      undoVote db vid = ({ success := false, reason := some "Vote not found" }, db))
  ∧ (∀ v : VoteWithDeltas, getVoteById db vid = some v → v.undone = true →
      undoVote db vid = ({ success := false, reason := some "Vote already undone" }, db))
  ∧ ((undoVote db vid).1.success = true →
      undoVote (undoVote db vid).2 vid
        = ({ success := false, reason := some "Vote already undone" },
           (undoVote db vid).2)) := by
  refine ⟨fun h => by simp [undoVote, h], fun v hv hu => by simp [undoVote, hv, hu], ?_⟩
  intro hsucc
  rcases hv : getVoteById db vid with _ | v
  · simp [undoVote, hv] at hsucc
  · by_cases hu : v.undone
    · simp [undoVote, hv, hu] at hsucc
    · rcases hw : getRestaurantById db v.winnerId with _ | w
      · simp [undoVote, hv, hu, hw] at hsucc
      · rcases hl : getRestaurantById db v.loserId with _ | l
        · simp [undoVote, hv, hu, hw, hl] at hsucc
        · have hvid : v.voteId = vid := getVoteById_voteId db vid v hv
          have h2 : (undoVote db vid).2
              = markVoteUndone (updateRestaurantRatings db
                  (voteUpdates v.winnerId v.loserId (categoryKey v.category)
                    (w.eloGlobal - v.deltaGlobalWinner)
                    (getField w (categoryKey v.category) - v.deltaCatWinner)
                    (l.eloGlobal - v.deltaGlobalLoser)
                    (getField l (categoryKey v.category) - v.deltaCatLoser))) vid := by
            simp [undoVote, hv, hu, hw, hl]
          have hv2 : getVoteById (markVoteUndone (updateRestaurantRatings db
              (voteUpdates v.winnerId v.loserId (categoryKey v.category)
                (w.eloGlobal - v.deltaGlobalWinner)
                (getField w (categoryKey v.category) - v.deltaCatWinner)
                (l.eloGlobal - v.deltaGlobalLoser)
                (getField l (categoryKey v.category) - v.deltaCatLoser))) vid) vid
              = some { v with undone := true } := by
            rw [getVoteById_mark, getVoteById_update, hv]
            simp [hvid]
          rw [h2]
          simp [undoVote, hv2]

/-- Claim C5 witness: on a store holding one applied vote, undo succeeds once
and the second undo on the same id is the idempotent rejection. -/
theorem undoVote_rejections_witness :
    undoVote (undoVote sampleDB2 "0").2 "0"
      = ({ success := false, reason := some "Vote already undone" }, (undoVote sampleDB2 "0").2) :=
  (undoVote_rejections sampleDB2 "0").2.2 rfl

/-- Claim C10: when the vote exists and is not undone but one of its two
restaurants cannot be resolved, `undoVote` fails with reason
`Restaurant(s) not found` and leaves the store untouched: no rating is
written and the vote is not marked undone, so it stays undoable. -/
theorem undoVote_missing_restaurant (db : DB) (vid : String) (v : VoteWithDeltas)
    (hv : getVoteById db vid = some v) (hu : v.undone = false)
    (hmiss : getRestaurantById db v.winnerId = none ∨ getRestaurantById db v.loserId = none) :
    undoVote db vid = ({ success := false, reason := some "Restaurant(s) not found" }, db) := by
  rcases hw : getRestaurantById db v.winnerId with _ | w <;>
    rcases hl : getRestaurantById db v.loserId with _ | l <;>
    simp_all [undoVote]

/-- Claim C10 witness: a concrete ledger row whose restaurants are gone. -/
theorem undoVote_missing_restaurant_witness :
    undoVote sampleDB3 "0"
      = ({ success := false, reason := some "Restaurant(s) not found" }, sampleDB3) :=
  undoVote_missing_restaurant sampleDB3 "0" sampleVote rfl rfl (Or.inl rfl)

/-! ## Claim C8: matchup generation -/

theorem pickDistinct_spec (a : ℕ) (rand : ℕ → ℕ) :
    ∀ fuel i b : ℕ, pickDistinct a rand i fuel = some b → b ≠ a ∧ ∃ j, rand j = b := by
  intro fuel
  induction fuel with
  | zero => intro i b h; exact absurd h (by simp [pickDistinct])
  | succ n ih =>
    intro i b h
    rw [pickDistinct] at h
    split at h
    · exact ih (i + 1) b h
    · rename_i hcond
      have hb : rand i = b := by injection h
      subst hb
      exact ⟨hcond, i, rfl⟩

/-- Claim C8: `generateMatchup` fails with the insufficient-candidates error
when fewer than 2 restaurants exist, and any matchup it returns pairs two
distinct restaurant ids (given in-range draws and pairwise-distinct ids). -/
theorem generateMatchup_spec (restaurants : List Restaurant) (category : SortCat)
    (rand : ℕ → ℕ) (fuel : ℕ) (freshId : String) (now : ℕ) :
    (restaurants.length < 2 →
      generateMatchup restaurants category rand fuel freshId now
        = some (Except.error ("Need at least 2 restaurants, found "
            ++ toString restaurants.length)))
  ∧ (∀ m : Matchup, (restaurants.map Restaurant.id).Nodup →
      (∀ i, rand i < restaurants.length) →
      generateMatchup restaurants category rand fuel freshId now = some (Except.ok m) →
      m.a ≠ m.b) := by
  constructor
  · intro h
    simp [generateMatchup, h]
  · intro m hnodup hrand h
    unfold generateMatchup at h
    by_cases hlen : restaurants.length < 2
    · rw [if_pos hlen] at h
      exact absurd h (by simp)
    · rw [if_neg hlen] at h
      dsimp only at h
      rcases hp : pickDistinct (rand 0) rand 1 fuel with _ | ib
      · rw [hp] at h
        exact absurd h (by simp)
      · rw [hp] at h
        obtain ⟨hne, j, hj⟩ := pickDistinct_spec (rand 0) rand fuel 1 ib hp
        simp only [Option.some.injEq, Except.ok.injEq] at h
        subst h
        have hA : rand 0 < restaurants.length := hrand 0
        have hB : ib < restaurants.length := by
          rw [← hj]
          exact hrand j
        show (restaurants.getD (rand 0) default).id ≠ (restaurants.getD ib default).id
        intro heq
        apply hne
        rw [List.getD_eq_getElem restaurants default hA,
          List.getD_eq_getElem restaurants default hB] at heq
        have hA2 : rand 0 < (restaurants.map Restaurant.id).length := by simpa using hA
        have hB2 : ib < (restaurants.map Restaurant.id).length := by simpa using hB
        have hmapeq : (restaurants.map Restaurant.id)[ib]
            = (restaurants.map Restaurant.id)[rand 0] := by
          rw [List.getElem_map, List.getElem_map]
          exact heq.symm
        exact hnodup.getElem_inj_iff.mp hmapeq

/-- Claim C8 witness: two restaurants, draw stream `0, 1, 0, 1, ...` — the
matchup pairs the two distinct ids. -/
theorem generateMatchup_spec_witness :
    generateMatchup sampleDB.restaurants SortCat.value (fun i => i % 2) 2 "m1" 7
      = some (Except.ok ⟨"m1", SortCat.value, "a", "b", 7⟩)
    ∧ ("a" : String) ≠ "b" := by
  refine ⟨rfl, ?_⟩
  have h := (generateMatchup_spec sampleDB.restaurants SortCat.value
    (fun i => i % 2) 2 "m1" 7).2 ⟨"m1", SortCat.value, "a", "b", 7⟩
    (by decide) (fun i => Nat.mod_lt i (by decide)) rfl
  exact h

/-! ## Claim C9: undone votes never enter the personal replay -/

/-- Claim C9: `computePersonalRankings` is invariant under first discarding
every undone ledger record — no vote with `undone == true` contributes to the
scratch ratings or the returned ranking, for any user and category. -/
theorem personalRankings_exclude_undone (restaurants : List Restaurant)
    (votes : List VoteWithDeltas) (userId : String) (category : SortCat) :
    computePersonalRankings restaurants votes userId category
      = computePersonalRankings restaurants (votes.filter (fun v => !v.undone))
          userId category := by
  unfold computePersonalRankings
  congr 1
  unfold getVotesByUser
  rw [List.filter_filter]
  congr 1
  apply List.filter_congr
  intro v hv
  cases h : v.undone <;> simp [h]

/-! ## Claim C4: submitVote validation -/

/-- Claim C4 counterexample: `submitVote` performs no category validation of
its own.  At runtime the non-votable category `global` is accepted: the call
succeeds, a ledger row is appended, and the winner's global rating moves from
1500 to 1516 — it is not rejected with `InvalidCategory` before mutation. -/
theorem submitVote_accepts_global_category :
    (submitVote sampleDB "a" "b" SortCat.global none).1.isOk = true
  ∧ (submitVote sampleDB "a" "b" SortCat.global none).2.votes.length = 1
  ∧ (getRestaurantById (submitVote sampleDB "a" "b" SortCat.global none).2 "a").map
      Restaurant.eloGlobal = some 1516
  ∧ ((1516 : ℝ) ≠ 1500) := by
  refine ⟨rfl, rfl, ?_, by norm_num⟩
  norm_num [submitVote, sampleDB, getRestaurantById, categoryKey, getField,
    updatePair_self_A, updateRestaurantRatings, storeVote, applyUpdates, voteUpdates, mapSet,
    eloPatch, emptyPatch, RatingPatch.set, applyPatch, List.find?, List.filter]

/-- Claim C4 (amended): `submitVote` rejects a vote whose winner and loser
coincide, and one whose winner or loser id does not resolve, each before any
mutation (the store is returned untouched); the category check is performed
not by `submitVote` but by the POST /api/vote route, which rejects a
non-votable category before `submitVote` is invoked. -/
theorem submitVote_validation (db : DB) (wid lid : String) (cat : SortCat)
    (uid : Option String) (m catStr : String) :
    (wid = lid →
      submitVote db wid lid cat uid
        = (Except.error "Winner and loser must be different restaurants", db))
  ∧ (wid ≠ lid → wid = "" ∨ lid = "" →
      submitVote db wid lid cat uid
        = (Except.error "Draw support not implemented yet (winner and loser required)", db))
  ∧ (wid ≠ lid → wid ≠ "" → lid ≠ "" → getRestaurantById db wid = none →
      submitVote db wid lid cat uid
        = (Except.error ("Winner restaurant " ++ wid ++ " not found"), db))
  ∧ (wid ≠ lid → wid ≠ "" → lid ≠ "" →
      (∀ w : Restaurant, getRestaurantById db wid = some w →
        getRestaurantById db lid = none →
        submitVote db wid lid cat uid
          = (Except.error ("Loser restaurant " ++ lid ++ " not found"), db)))
  ∧ (m ≠ "" → wid ≠ "" → lid ≠ "" → catStr ≠ "" → catStr ∉ VOTABLE_CATEGORIES →
      votePost db m wid lid catStr uid
        = (Except.error "Invalid category. Must be one of: value, aesthetics, speed", db)) := by
  refine ⟨?_, ?_, ?_, ?_, ?_⟩
  · intro h
    simp [submitVote, h]
  · intro hne h
    simp [submitVote, hne, h]
  · intro hne hw0 hl0 hw
    simp [submitVote, hne, hw0, hl0, hw]
  · intro hne hw0 hl0 w hw hl
    simp [submitVote, hne, hw0, hl0, hw, hl]
  · intro hm hw0 hl0 hc0 hcat
    simp [votePost, hm, hw0, hl0, hc0, hcat]

/-- Claim C4 witness: the equal-ids rejection and the route-level category
rejection, each at a concrete input with the store returned unchanged. -/
theorem submitVote_validation_witness :
    submitVote sampleDB "a" "a" SortCat.value none
      = (Except.error "Winner and loser must be different restaurants", sampleDB)
  ∧ votePost sampleDB "m1" "a" "b" "global" none
      = (Except.error "Invalid category. Must be one of: value, aesthetics, speed", sampleDB) :=
  ⟨(submitVote_validation sampleDB "a" "a" SortCat.value none "m1" "global").1 rfl,
   (submitVote_validation sampleDB "a" "b" SortCat.value none "m1" "global").2.2.2.2
     (by decide) (by decide) (by decide) (by decide) (by decide)⟩

/-! ## Claim C2: the interleaved lost update -/

/-- The snapshot rows of `interleavedDB` are exactly what both calls read. -/
theorem reads_dbC2 :
    getRestaurantById dbC2 "A" = some rowA
  ∧ getRestaurantById dbC2 "B" = some rowB
  ∧ getRestaurantById dbC2 "C" = some rowC :=
  ⟨rfl, rfl, rfl⟩

/-- Claim C2 evaluation: in the read-read-write-write interleaving of two
votes on entity `A`, both ledger rows commit (two rows, their winner global
deltas summing to 32) but `A`'s final global rating is 1516 — only one of the
two +16 deltas survives, because each `submitVote` writes absolute values
computed from its own pre-write read, outside any transaction. -/
theorem interleaved_votes_lost_update :
    (getRestaurantById interleavedDB "A").map Restaurant.eloGlobal = some 1516
  ∧ interleavedDB.votes.length = 2
  ∧ (interleavedDB.votes.map VoteWithDeltas.deltaGlobalWinner).sum = 32
  ∧ ((1516 : ℝ) ≠ 1500 + 32) := by
  refine ⟨?_, rfl, ?_, by norm_num⟩
  · norm_num [interleavedDB, dbC2, rowA, rowB, rowC, getRestaurantById, categoryKey, getField,
      updatePair_self_A, updateRestaurantRatings, storeVote, applyUpdates, voteUpdates,
      mapSet, eloPatch, emptyPatch, RatingPatch.set, applyPatch, List.find?, List.filter]
  · norm_num [interleavedDB, dbC2, rowA, rowB, rowC, getRestaurantById, getField,
      updatePair_self_A, updateRestaurantRatings, storeVote, applyUpdates, voteUpdates,
      mapSet, eloPatch, emptyPatch, RatingPatch.set, applyPatch, List.find?, List.filter]

/-! ## Claims C1 and C7: the vote/undo round trip and its frame -/

theorem updatePair_newA (a b : ℝ) (o : Outcome) :
    (updatePairByOutcome a b o).newA = a + (updatePairByOutcome a b o).deltaA := rfl

theorem updatePair_newB (a b : ℝ) (o : Outcome) :
    (updatePairByOutcome a b o).newB = b + (updatePairByOutcome a b o).deltaB := rfl

/-- The success path of `submitVote`, written out: when the ids are distinct,
non-empty and both resolve, the call returns the fresh vote id with the two
updated restaurants, having written the four absolute values and appended the
ledger row. -/
theorem submitVote_ok (db : DB) (wid lid : String) (cat : SortCat) (uid : Option String)
    (w l : Restaurant) (hne : wid ≠ lid) (hw0 : wid ≠ "") (hl0 : lid ≠ "")
    (hw : getRestaurantById db wid = some w) (hl : getRestaurantById db lid = some l) :
    submitVote db wid lid cat uid
      = (Except.ok
          { voteId := toString db.nextId,
            winner := setField (setField w EloField.global
                (updatePairByOutcome w.eloGlobal l.eloGlobal Outcome.A).newA)
              (categoryKey cat)
              (updatePairByOutcome (getField w (categoryKey cat))
                (getField l (categoryKey cat)) Outcome.A).newA,
            loser := setField (setField l EloField.global
                (updatePairByOutcome w.eloGlobal l.eloGlobal Outcome.A).newB)
              (categoryKey cat)
              (updatePairByOutcome (getField w (categoryKey cat))
                (getField l (categoryKey cat)) Outcome.A).newB },
         ⟨db.restaurants.map (applyUpdates (voteUpdates wid lid (categoryKey cat)
            (updatePairByOutcome w.eloGlobal l.eloGlobal Outcome.A).newA
            (updatePairByOutcome (getField w (categoryKey cat))
              (getField l (categoryKey cat)) Outcome.A).newA
            (updatePairByOutcome w.eloGlobal l.eloGlobal Outcome.A).newB
            (updatePairByOutcome (getField w (categoryKey cat))
              (getField l (categoryKey cat)) Outcome.A).newB)),
          db.votes ++
            [⟨toString db.nextId, wid, lid, cat,
              (updatePairByOutcome w.eloGlobal l.eloGlobal Outcome.A).deltaA,
              (updatePairByOutcome w.eloGlobal l.eloGlobal Outcome.A).deltaB,
              (updatePairByOutcome (getField w (categoryKey cat))
                (getField l (categoryKey cat)) Outcome.A).deltaA,
              (updatePairByOutcome (getField w (categoryKey cat))
                (getField l (categoryKey cat)) Outcome.A).deltaB,
              false, db.nextId, uid⟩],
          db.nextId + 1⟩) := by
  unfold submitVote
  rw [if_neg hne, if_neg (not_or.mpr ⟨hw0, hl0⟩), hw, hl]
  rfl

theorem find?_voteUpdates_cases (wid lid : String) (key : EloField) (gW cW gL cL : ℝ)
    (p : String × RatingPatch → Bool) (kv : String × RatingPatch)
    (h : (voteUpdates wid lid key gW cW gL cL).find? p = some kv) :
    kv.2 = eloPatch gW key cW ∨ kv.2 = eloPatch gL key cL := by
  have hm := List.mem_of_find?_eq_some h
  by_cases hwl : wid = lid <;> simp [voteUpdates, mapSet, hwl] at hm
  · right
    rw [hm]
  · rcases hm with hm | hm
    · left
      rw [hm]
    · right
      rw [hm]

/-- Claim C7: a successful `submitVote` appends exactly one ledger row and
touches exactly the two participants: every row keeps its id, rows of other
restaurants are unchanged, and even for the two participants every rating
field other than `eloGlobal` and the voted category's field keeps its value. -/
theorem submitVote_frame (db : DB) (wid lid : String) (cat : SortCat)
    (uid : Option String) (w l : Restaurant)
    (hne : wid ≠ lid) (hw0 : wid ≠ "") (hl0 : lid ≠ "")
    (hw : getRestaurantById db wid = some w) (hl : getRestaurantById db lid = some l) :
    (submitVote db wid lid cat uid).1.isOk = true
  ∧ (submitVote db wid lid cat uid).2.votes.dropLast = db.votes
  ∧ (submitVote db wid lid cat uid).2.votes.length = db.votes.length + 1
  ∧ List.Forall₂ (fun r0 r1 =>
      r1.id = r0.id
      ∧ (r0.id ≠ wid → r0.id ≠ lid → r1 = r0)
      ∧ (∀ f : EloField, f ≠ EloField.global → f ≠ categoryKey cat →
          getField r1 f = getField r0 f))
      db.restaurants (submitVote db wid lid cat uid).2.restaurants := by
  rw [submitVote_ok db wid lid cat uid w l hne hw0 hl0 hw hl]
  refine ⟨rfl, List.dropLast_concat, by simp, ?_⟩
  show List.Forall₂ _ db.restaurants (db.restaurants.map _)
  rw [List.forall₂_map_right_iff, List.forall₂_same]
  intro r hr
  refine ⟨applyUpdates_id _ _, ?_, ?_⟩
  · intro h1 h2
    unfold applyUpdates
    rw [find?_voteUpdates_other _ _ _ _ _ _ _ _ h1 h2]
  · intro f hf1 hf2
    unfold applyUpdates
    rcases hfind : List.find? (fun kv => kv.1 == r.id) (voteUpdates wid lid (categoryKey cat)
        (updatePairByOutcome w.eloGlobal l.eloGlobal Outcome.A).newA
        (updatePairByOutcome (getField w (categoryKey cat))
          (getField l (categoryKey cat)) Outcome.A).newA
        (updatePairByOutcome w.eloGlobal l.eloGlobal Outcome.A).newB
        (updatePairByOutcome (getField w (categoryKey cat))
          (getField l (categoryKey cat)) Outcome.A).newB) with _ | kv
    · rw [hfind]
    · rw [hfind]
      show getField (applyPatch r kv.2) f = getField r f
      rcases find?_voteUpdates_cases _ _ _ _ _ _ _ _ _ hfind with hkv | hkv <;>
        rw [hkv, getField_patch, if_neg hf2, if_neg hf1]

/-- Claim C1: a successful `submitVote(winner, loser, category)` immediately
followed by `undoVote` on the returned vote id (which is the store's fresh id)
restores both participants' global and voted-category ratings to their exact
pre-vote values.  Ratings are modelled as real numbers, so "exact" is exact
equality. -/
theorem submit_then_undo_roundtrip (db : DB) (wid lid : String) (cat : SortCat)
    (uid : Option String) (w l : Restaurant)
    (hne : wid ≠ lid) (hw0 : wid ≠ "") (hl0 : lid ≠ "")
    (hw : getRestaurantById db wid = some w) (hl : getRestaurantById db lid = some l)
    (hfresh : ∀ v ∈ db.votes, v.voteId ≠ toString db.nextId) :
    (submitVote db wid lid cat uid).1.isOk = true
  ∧ (∀ res : SubmitVoteResult, (submitVote db wid lid cat uid).1 = Except.ok res →
      res.voteId = toString db.nextId)
  ∧ (undoVote (submitVote db wid lid cat uid).2 (toString db.nextId)).1.success = true
  ∧ (getRestaurantById (undoVote (submitVote db wid lid cat uid).2
        (toString db.nextId)).2 wid).map
      (fun r => (r.eloGlobal, getField r (categoryKey cat)))
      = some (w.eloGlobal, getField w (categoryKey cat))
  ∧ (getRestaurantById (undoVote (submitVote db wid lid cat uid).2
        (toString db.nextId)).2 lid).map
      (fun r => (r.eloGlobal, getField r (categoryKey cat)))
      = some (l.eloGlobal, getField l (categoryKey cat)) := by
  have hwid : w.id = wid := by simpa using List.find?_some hw
  have hlid : l.id = lid := by simpa using List.find?_some hl
  have h1 : db.votes.find? (fun v => v.voteId == toString db.nextId) = none :=
    List.find?_eq_none.mpr (fun v hv => by simp [hfresh v hv])
  rw [submitVote_ok db wid lid cat uid w l hne hw0 hl0 hw hl]
  dsimp only
  obtain ⟨key, hkey⟩ : ∃ k, categoryKey cat = k := ⟨_, rfl⟩
  simp only [hkey]
  obtain ⟨g, hg⟩ : ∃ g0, updatePairByOutcome w.eloGlobal l.eloGlobal Outcome.A = g0 := ⟨_, rfl⟩
  obtain ⟨c, hc⟩ : ∃ c0,
      updatePairByOutcome (getField w key) (getField l key) Outcome.A = c0 := ⟨_, rfl⟩
  have hgA : g.newA = w.eloGlobal + g.deltaA := by
    rw [← hg]
    exact updatePair_newA _ _ _
  have hgB : g.newB = l.eloGlobal + g.deltaB := by
    rw [← hg]
    exact updatePair_newB _ _ _
  have hcA : c.newA = getField w key + c.deltaA := by
    rw [← hc]
    exact updatePair_newA _ _ _
  have hcB : c.newB = getField l key + c.deltaB := by
    rw [← hc]
    exact updatePair_newB _ _ _
  simp only [hg, hc]
  have hrec : getVoteById
      (⟨db.restaurants.map (applyUpdates (voteUpdates wid lid key g.newA c.newA g.newB c.newB)),
        db.votes ++ [⟨toString db.nextId, wid, lid, cat, g.deltaA, g.deltaB, c.deltaA, c.deltaB,
          false, db.nextId, uid⟩],
        db.nextId + 1⟩ : DB) (toString db.nextId)
      = some ⟨toString db.nextId, wid, lid, cat, g.deltaA, g.deltaB, c.deltaA, c.deltaB,
          false, db.nextId, uid⟩ := by
    show (db.votes ++ [(⟨toString db.nextId, wid, lid, cat, g.deltaA, g.deltaB, c.deltaA,
        c.deltaB, false, db.nextId, uid⟩ : VoteWithDeltas)]).find?
        (fun v => v.voteId == toString db.nextId) = _
    rw [List.find?_append, h1]
    simp [List.find?_cons]
  have hup : getRestaurantById
      (⟨db.restaurants.map (applyUpdates (voteUpdates wid lid key g.newA c.newA g.newB c.newB)),
        db.votes ++ [⟨toString db.nextId, wid, lid, cat, g.deltaA, g.deltaB, c.deltaA, c.deltaB,
          false, db.nextId, uid⟩],
        db.nextId + 1⟩ : DB) wid
      = some (applyPatch w (eloPatch g.newA key c.newA)) := by
    have hstep : getRestaurantById
        (⟨db.restaurants.map (applyUpdates (voteUpdates wid lid key g.newA c.newA g.newB c.newB)),
          db.votes ++ [⟨toString db.nextId, wid, lid, cat, g.deltaA, g.deltaB, c.deltaA,
            c.deltaB, false, db.nextId, uid⟩],
          db.nextId + 1⟩ : DB) wid
        = (getRestaurantById db wid).map
            (applyUpdates (voteUpdates wid lid key g.newA c.newA g.newB c.newB)) := by
      show getRestaurantById (updateRestaurantRatings db
        (voteUpdates wid lid key g.newA c.newA g.newB c.newB)) wid = _
      exact getRestaurantById_update db _ wid
    rw [hstep, hw]
    show some (applyUpdates (voteUpdates wid lid key g.newA c.newA g.newB c.newB) w) = _
    unfold applyUpdates
    simp only [hwid]
    rw [find?_voteUpdates_winner wid lid key g.newA c.newA g.newB c.newB hne]
  have hupl : getRestaurantById
      (⟨db.restaurants.map (applyUpdates (voteUpdates wid lid key g.newA c.newA g.newB c.newB)),
        db.votes ++ [⟨toString db.nextId, wid, lid, cat, g.deltaA, g.deltaB, c.deltaA, c.deltaB,
          false, db.nextId, uid⟩],
        db.nextId + 1⟩ : DB) lid
      = some (applyPatch l (eloPatch g.newB key c.newB)) := by
    have hstep : getRestaurantById
        (⟨db.restaurants.map (applyUpdates (voteUpdates wid lid key g.newA c.newA g.newB c.newB)),
          db.votes ++ [⟨toString db.nextId, wid, lid, cat, g.deltaA, g.deltaB, c.deltaA,
            c.deltaB, false, db.nextId, uid⟩],
          db.nextId + 1⟩ : DB) lid
        = (getRestaurantById db lid).map
            (applyUpdates (voteUpdates wid lid key g.newA c.newA g.newB c.newB)) := by
      show getRestaurantById (updateRestaurantRatings db
        (voteUpdates wid lid key g.newA c.newA g.newB c.newB)) lid = _
      exact getRestaurantById_update db _ lid
    rw [hstep, hl]
    show some (applyUpdates (voteUpdates wid lid key g.newA c.newA g.newB c.newB) l) = _
    unfold applyUpdates
    simp only [hlid]
    rw [find?_voteUpdates_loser wid lid key g.newA c.newA g.newB c.newB]
  obtain ⟨S, hS⟩ : ∃ s,
      (⟨db.restaurants.map (applyUpdates (voteUpdates wid lid key g.newA c.newA g.newB c.newB)),
        db.votes ++ [⟨toString db.nextId, wid, lid, cat, g.deltaA, g.deltaB, c.deltaA, c.deltaB,
          false, db.nextId, uid⟩],
        db.nextId + 1⟩ : DB) = s := ⟨_, rfl⟩
  rw [hS] at hrec hup hupl
  simp only [hS]
  obtain ⟨w1, hw1⟩ : ∃ r, applyPatch w (eloPatch g.newA key c.newA) = r := ⟨_, rfl⟩
  obtain ⟨l1, hl1⟩ : ∃ r, applyPatch l (eloPatch g.newB key c.newB) = r := ⟨_, rfl⟩
  have hw1glob : w1.eloGlobal = if EloField.global = key then c.newA else g.newA := by
    rw [← hw1]
    show getField (applyPatch w (eloPatch g.newA key c.newA)) EloField.global = _
    rw [getField_patch]
    by_cases hgl : EloField.global = key
    · rw [if_pos hgl, if_pos hgl]
    · rw [if_neg hgl, if_neg hgl, if_pos rfl]
  have hw1key : getField w1 key = c.newA := by
    rw [← hw1, getField_patch, if_pos rfl]
  have hw1id : w1.id = wid := by
    rw [← hw1]
    exact hwid
  have hl1glob : l1.eloGlobal = if EloField.global = key then c.newB else g.newB := by
    rw [← hl1]
    show getField (applyPatch l (eloPatch g.newB key c.newB)) EloField.global = _
    rw [getField_patch]
    by_cases hgl : EloField.global = key
    · rw [if_pos hgl, if_pos hgl]
    · rw [if_neg hgl, if_neg hgl, if_pos rfl]
  have hl1key : getField l1 key = c.newB := by
    rw [← hl1, getField_patch, if_pos rfl]
  have hl1id : l1.id = lid := by
    rw [← hl1]
    exact hlid
  rw [hw1] at hup
  rw [hl1] at hupl
  have hpairU : undoVote S (toString db.nextId)
      = ({ success := true,
           winner := getRestaurantById (markVoteUndone (updateRestaurantRatings S
             (voteUpdates wid lid key (w1.eloGlobal - g.deltaA) (getField w1 key - c.deltaA)
               (l1.eloGlobal - g.deltaB) (getField l1 key - c.deltaB))) (toString db.nextId)) wid,
           loser := getRestaurantById (markVoteUndone (updateRestaurantRatings S
             (voteUpdates wid lid key (w1.eloGlobal - g.deltaA) (getField w1 key - c.deltaA)
               (l1.eloGlobal - g.deltaB) (getField l1 key - c.deltaB))) (toString db.nextId)) lid },
         markVoteUndone (updateRestaurantRatings S
           (voteUpdates wid lid key (w1.eloGlobal - g.deltaA) (getField w1 key - c.deltaA)
             (l1.eloGlobal - g.deltaB) (getField l1 key - c.deltaB))) (toString db.nextId)) := by
    simp [undoVote, hrec, hup, hupl, hkey]
  have hfinw : getRestaurantById (markVoteUndone (updateRestaurantRatings S
      (voteUpdates wid lid key (w1.eloGlobal - g.deltaA) (getField w1 key - c.deltaA)
        (l1.eloGlobal - g.deltaB) (getField l1 key - c.deltaB))) (toString db.nextId)) wid
      = some (applyPatch w1 (eloPatch (w1.eloGlobal - g.deltaA) key
          (getField w1 key - c.deltaA))) := by
    rw [getRestaurantById_mark, getRestaurantById_update, hup]
    show some (applyUpdates (voteUpdates wid lid key (w1.eloGlobal - g.deltaA)
      (getField w1 key - c.deltaA) (l1.eloGlobal - g.deltaB) (getField l1 key - c.deltaB)) w1) = _
    unfold applyUpdates
    simp only [hw1id]
    rw [find?_voteUpdates_winner wid lid key (w1.eloGlobal - g.deltaA)
      (getField w1 key - c.deltaA) (l1.eloGlobal - g.deltaB) (getField l1 key - c.deltaB) hne]
  have hfinl : getRestaurantById (markVoteUndone (updateRestaurantRatings S
      (voteUpdates wid lid key (w1.eloGlobal - g.deltaA) (getField w1 key - c.deltaA)
        (l1.eloGlobal - g.deltaB) (getField l1 key - c.deltaB))) (toString db.nextId)) lid
      = some (applyPatch l1 (eloPatch (l1.eloGlobal - g.deltaB) key
          (getField l1 key - c.deltaB))) := by
    rw [getRestaurantById_mark, getRestaurantById_update, hupl]
    show some (applyUpdates (voteUpdates wid lid key (w1.eloGlobal - g.deltaA)
      (getField w1 key - c.deltaA) (l1.eloGlobal - g.deltaB) (getField l1 key - c.deltaB)) l1) = _
    unfold applyUpdates
    simp only [hl1id]
    rw [find?_voteUpdates_loser wid lid key (w1.eloGlobal - g.deltaA)
      (getField w1 key - c.deltaA) (l1.eloGlobal - g.deltaB) (getField l1 key - c.deltaB)]
  refine ⟨rfl, ?_, ?_, ?_, ?_⟩
  · intro res hres
    have h3 : ({ voteId := toString db.nextId,
                 winner := setField (setField w EloField.global g.newA) key c.newA,
                 loser := setField (setField l EloField.global g.newB) key c.newB } :
          SubmitVoteResult) = res := by
      injection hres
    rw [← h3]
  · rw [hpairU]
  · rw [hpairU]
    dsimp only
    rw [hfinw]
    simp only [Option.map_some', Option.some.injEq, Prod.mk.injEq]
    constructor
    · show getField (applyPatch w1 (eloPatch (w1.eloGlobal - g.deltaA) key
        (getField w1 key - c.deltaA))) EloField.global = w.eloGlobal
      rw [getField_patch]
      by_cases hgl : EloField.global = key
      · rw [if_pos hgl, hw1key, hcA, ← hgl]
        show w.eloGlobal + c.deltaA - c.deltaA = w.eloGlobal
        ring
      · rw [if_neg hgl, if_pos rfl, hw1glob, if_neg hgl, hgA]
        ring
    · rw [getField_patch, if_pos rfl, hw1key, hcA]
      ring
  · rw [hpairU]
    dsimp only
    rw [hfinl]
    simp only [Option.map_some', Option.some.injEq, Prod.mk.injEq]
    constructor
    · show getField (applyPatch l1 (eloPatch (l1.eloGlobal - g.deltaB) key
        (getField l1 key - c.deltaB))) EloField.global = l.eloGlobal
      rw [getField_patch]
      by_cases hgl : EloField.global = key
      · rw [if_pos hgl, hl1key, hcB, ← hgl]
        show l.eloGlobal + c.deltaB - c.deltaB = l.eloGlobal
        ring
      · rw [if_neg hgl, if_pos rfl, hl1glob, if_neg hgl, hgB]
        ring
    · rw [getField_patch, if_pos rfl, hl1key, hcB]
      ring

/-- Claim C1 witness: at a concrete two-restaurant store, vote `a` beats `b`
on `value` and undo the returned vote id (`"0"`): both restaurants' global and
value ratings return to 1500 exactly. -/
theorem submit_then_undo_roundtrip_witness :
    (getRestaurantById (undoVote (submitVote sampleDB "a" "b" SortCat.value none).2 "0").2 "a").map
      (fun r => (r.eloGlobal, getField r (categoryKey SortCat.value)))
      = some ((1500 : ℝ), (1500 : ℝ))
  ∧ (getRestaurantById (undoVote (submitVote sampleDB "a" "b" SortCat.value none).2 "0").2 "b").map
      (fun r => (r.eloGlobal, getField r (categoryKey SortCat.value)))
      = some ((1500 : ℝ), (1500 : ℝ))
  ∧ (undoVote (submitVote sampleDB "a" "b" SortCat.value none).2 "0").1.success = true := by
  have h := submit_then_undo_roundtrip sampleDB "a" "b" SortCat.value none
    ⟨"a", 1500, 1500, 1500, 1500⟩ ⟨"b", 1500, 1500, 1500, 1500⟩
    (by decide) (by decide) (by decide) rfl rfl
    (fun v hv => absurd hv (List.not_mem_nil v))
  exact ⟨h.2.2.2.1, h.2.2.2.2, h.2.2.1⟩

/-- Claim C7 witness: the frame facts at a concrete two-restaurant store. -/
theorem submitVote_frame_witness :
    (submitVote sampleDB "a" "b" SortCat.value none).2.votes.dropLast = sampleDB.votes
  ∧ (submitVote sampleDB "a" "b" SortCat.value none).2.votes.length
      = sampleDB.votes.length + 1 :=
  ⟨(submitVote_frame sampleDB "a" "b" SortCat.value none
      ⟨"a", 1500, 1500, 1500, 1500⟩ ⟨"b", 1500, 1500, 1500, 1500⟩
      (by decide) (by decide) (by decide) rfl rfl).2.1,
   (submitVote_frame sampleDB "a" "b" SortCat.value none
      ⟨"a", 1500, 1500, 1500, 1500⟩ ⟨"b", 1500, 1500, 1500, 1500⟩
      (by decide) (by decide) (by decide) rfl rfl).2.2.1⟩

end ForkFight
